import Mathlib

/-
Verification of the structure of the `pulsar-edit/types` repository, a corpus
of TypeScript ambient declaration files for the Pulsar editor API.

The corpus is shallowly embedded as a deep syntax tree: each source file is a
`SourceFile` holding a list of `Construct`s; interfaces, type aliases and
ambient classes hold lists of `Member` signatures.  The `Stmt` type and the
`statement` / `functionDecl` / `constDecl`-initializer forms exist so that the
"no executable code" properties are non-vacuous: the syntax *can* express
executable statements, bodies and initializers, and the theorems check that
the transcribed corpus contains none.

Rendering conventions used in the transcription (stated once, applied
uniformly):
* Type annotations are transcribed as strings; object-literal types are
  rendered with `(` `)` instead of curly braces, and string-literal types
  with escaped double quotes.
* `readonly` and `static` modifiers, parameter lists, generic parameters and
  doc-comment trivia are not transcribed: no claim depends on them, with one
  exception - the parameter types of the `Notification` constructor overloads,
  which are modelled separately as `notificationCtorOverloads`.
* Overloaded signatures are transcribed once per overload.
* Method signatures nested inside the type annotation of a property (for example
  the `onDidClick` method of the object type inside `NotificationOptions.
  buttons`) are recorded in the `nested` list of the member.
* A source file that packs several related documents (separated by a
  document marker) is transcribed as a single `SourceFile` holding the
  concatenation of the constructs of all its documents.
-/

namespace PulsarTypes

/-- Executable statement forms of TypeScript. None occur in this corpus; the
constructors exist so that claims about the absence of executable code are
non-vacuous. -/
inductive Stmt where
  | exprCall (callee : String) (args : List String)
  | assign (lhs rhs : String)
  | throwNew (message : String)
  | requireCall (moduleName : String)
  | returnVal (value : String)
deriving BEq, DecidableEq

/-- The kind of a member signature inside an interface, type alias or class. -/
inductive MemberKind where
  | method
  | property
  | ctorK
  | indexSig
deriving BEq, DecidableEq

/-- A single member signature: a method, property, constructor or index
signature, with its declared (return) type and an optional body. Ambient
declarations never have bodies, so `body` is `none` throughout the corpus. -/
structure Sig where
  name : String
  kind : MemberKind
  optional : Bool := false
  retTy : String := ""
  ty : String := ""
  body : Option Stmt := none
deriving BEq, DecidableEq

/-- A member of a top-level declaration. `nested` holds method signatures
that occur inside the type annotation of this member (object-literal types). -/
structure Member extends Sig where
  nested : List Sig := []
deriving BEq, DecidableEq

def meth (n r : String) : Member := { name := n, kind := .method, retTy := r }

def methO (n r : String) : Member :=
  { name := n, kind := .method, optional := true, retTy := r }

def prop (n t : String) : Member := { name := n, kind := .property, ty := t }

def propO (n t : String) : Member :=
  { name := n, kind := .property, optional := true, ty := t }

def propN (n t : String) (ns : List Sig) : Member :=
  { name := n, kind := .property, ty := t, nested := ns }

def propNO (n t : String) (ns : List Sig) : Member :=
  { name := n, kind := .property, optional := true, ty := t, nested := ns }

def ctorMember : Member := { name := "constructor", kind := .ctorK }

def idxSig (n t : String) : Member := { name := n, kind := .indexSig, ty := t }

def sigMeth (n r : String) : Sig := { name := n, kind := .method, retTy := r }

def sigMethO (n r : String) : Sig :=
  { name := n, kind := .method, optional := true, retTy := r }

def sigProp (n t : String) : Sig := { name := n, kind := .property, ty := t }

def sigPropO (n t : String) : Sig :=
  { name := n, kind := .property, optional := true, ty := t }

/-- A top-level construct of a declaration file. Only declaration forms occur
in this corpus; `statement`, bodies and initializers are representable so the
absence claims have content. -/
inductive Construct where
  | importDecl (fromModule : String) (names : List String) (typeOnly : Bool)
  | referenceDirective (text : String)
  | interfaceDecl (name : String) (exported : Bool)
      (extendsList : List String) (members : List Member)
  | typeAlias (name : String) (exported : Bool) (members : List Member)
  | classDecl (name : String) (exported : Bool)
      (implementsList : List String) (members : List Member)
  | functionDecl (name : String) (retTy : String) (body : Option Stmt)
  | constDecl (name : String) (ty : String) (init : Option Stmt)
  | globalDecl (body : List Construct)
  | moduleDecl (name : String) (body : List Construct)
  | exportStar (fromModule : String)
  | exportNamed (names : List String) (fromModule : String)
  | docComment (text : String)
  | statement (s : Stmt)

/-- A source file of the corpus. -/
structure SourceFile where
  path : String
  markdown : Bool := false
  constructs : List Construct

mutual

/-- A construct together with the constructs nested inside `declare global` /
`declare module` blocks. -/
def flattenConstruct : Construct → List Construct
  | .globalDecl body => .globalDecl body :: flattenConstructs body
  | .moduleDecl n body => .moduleDecl n body :: flattenConstructs body
  | c => [c]

/-- Flatten a list of constructs, including module/global bodies. -/
def flattenConstructs : List Construct → List Construct
  | [] => []
  | c :: cs => flattenConstruct c ++ flattenConstructs cs

end

/-- Name and member list of a named type-shape declaration, if any. -/
def Construct.nameAndMembers : Construct → Option (String × List Member)
  | .interfaceDecl n _ _ ms => some (n, ms)
  | .typeAlias n _ ms => some (n, ms)
  | .classDecl n _ _ ms => some (n, ms)
  | _ => none

/-- All member signatures (including nested ones) of a construct, tagged with
the name of the declaration that owns them. -/
def Construct.ownedSigs (c : Construct) : List (String × Sig) :=
  match c.nameAndMembers with
  | some (n, ms) =>
      (ms.map (fun m => (n, m.toSig) :: m.nested.map (fun s => (n, s)))).flatten
  | none => []

/-- Statements contained in a member: its body, plus bodies of nested
signatures. -/
def Member.bodyStmts (m : Member) : List Stmt :=
  m.toSig.body.toList ++ m.nested.filterMap Sig.body

mutual

/-- All executable statements contained in a construct: top-level statements,
function bodies, const initializers, member bodies, recursively through
ambient module/global blocks. -/
def Construct.stmts : Construct → List Stmt
  | .statement s => [s]
  | .functionDecl _ _ body => body.toList
  | .constDecl _ _ init => init.toList
  | .globalDecl body => stmtsOfList body
  | .moduleDecl _ body => stmtsOfList body
  | .interfaceDecl _ _ _ ms => (ms.map Member.bodyStmts).flatten
  | .typeAlias _ _ ms => (ms.map Member.bodyStmts).flatten
  | .classDecl _ _ _ ms => (ms.map Member.bodyStmts).flatten
  | _ => []

/-- All executable statements contained in a list of constructs. -/
def stmtsOfList : List Construct → List Stmt
  | [] => []
  | c :: cs => c.stmts ++ stmtsOfList cs

end

/-- All constructs of a file, with module/global bodies flattened in. -/
def SourceFile.allConstructs (f : SourceFile) : List Construct :=
  flattenConstructs f.constructs

/-- All member signatures of a file, tagged with their owning declaration. -/
def SourceFile.ownedSigs (f : SourceFile) : List (String × Sig) :=
  (f.allConstructs.map Construct.ownedSigs).flatten

/-- All member signatures of a file. -/
def SourceFile.allSigs (f : SourceFile) : List Sig :=
  f.ownedSigs.map Prod.snd

/-- All executable statements of a file. -/
def SourceFile.allStmts (f : SourceFile) : List Stmt :=
  stmtsOfList f.constructs

/-- README.md: markdown documentation only. -/
def readmeFile : SourceFile :=
  { path := "README.md", markdown := true,
    constructs := [.docComment "markdown package documentation"] }

/-- dependencies/event-kit/index.d.ts. -/
def eventKitFile : SourceFile :=
  { path := "dependencies/event-kit/index.d.ts", constructs := [
    .interfaceDecl "DisposableLike" true [] [
      meth "dispose" "void"],
    .classDecl "Disposable" true ["DisposableLike"] [
      meth "isDisposable" "boolean",
      ctorMember,
      methO "disposalAction" "void",
      meth "dispose" "void"],
    .classDecl "CompositeDisposable" true ["DisposableLike"] [
      ctorMember,
      meth "dispose" "void",
      meth "add" "void",
      meth "remove" "void",
      meth "delete" "void",
      meth "clear" "void"],
    .classDecl "Emitter" true ["DisposableLike"] [
      ctorMember,
      meth "clear" "void",
      meth "dispose" "boolean",
      meth "on" "Disposable",
      meth "on" "Disposable",
      meth "once" "Disposable",
      meth "once" "Disposable",
      meth "preempt" "Disposable",
      meth "preempt" "Disposable",
      meth "emit" "void",
      meth "emit" "void"],
    .docComment "related document: copy of the package README"] }

/-- dependencies/service-hub/src/consumer.d.ts. -/
def consumerFile : SourceFile :=
  { path := "dependencies/service-hub/src/consumer.d.ts", constructs := [
    .importDecl "semver" ["Range"] false,
    .importDecl "./util" ["Service"] false,
    .interfaceDecl "Consumer" true [] [
      prop "keyPath" "string",
      prop "callback" "(service: Service) => void",
      prop "versionRange" "Range"]] }

/-- dependencies/service-hub/src/provider.d.ts. -/
def providerFile : SourceFile :=
  { path := "dependencies/service-hub/src/provider.d.ts", constructs := [
    .importDecl "../../event-kit" ["CompositeDisposable", "Disposable"] false,
    .importDecl "semver" ["SemVer"] false,
    .importDecl "./util" ["Service"] false,
    .importDecl "./consumer" ["Consumer"] false,
    .interfaceDecl "Provider" true [] [
      prop "consumersDisposable" "CompositeDisposable",
      prop "servicesByVersion" "Record<string, Service | Record<string, Service>>",
      prop "versions" "SemVer[]",
      meth "provide" "void",
      meth "destroy" "void"]] }

/-- dependencies/service-hub/src/service-hub.d.ts. -/
def serviceHubFile : SourceFile :=
  { path := "dependencies/service-hub/src/service-hub.d.ts", constructs := [
    .importDecl "atom" ["Disposable"] false,
    .importDecl "./consumer" ["Consumer"] false,
    .importDecl "./provider" ["Provider"] false,
    .importDecl "./util" ["Service"] false,
    .interfaceDecl "ServiceHub" true [] [
      prop "providers" "Provider[]",
      prop "consumers" "Consumer[]",
      meth "provide" "Disposable",
      meth "consume" "Disposable",
      meth "clear" "void"]] }

/-- src/command-registry.d.ts, with the related Task document. -/
def commandRegistryFile : SourceFile :=
  { path := "src/command-registry.d.ts", constructs := [
    .importDecl "../index" ["CommandEvent", "CompositeDisposable", "Disposable"] false,
    .interfaceDecl "CommandRegistryTargetMap" true ["HTMLElementTagNameMap"] [
      idxSig "[key: string]" "EventTarget"],
    .typeAlias "CommandRegistryListener" true [
      meth "didDispatch" "unknown | Promise<unknown>",
      propO "displayName" "string | undefined",
      propO "description" "string | undefined",
      propO "hiddenInCommandPalette" "boolean | undefined"],
    .interfaceDecl "CommandRegistry" true [] [
      meth "add" "Disposable",
      meth "add" "Disposable",
      meth "add" "Disposable",
      meth "add" "CompositeDisposable",
      meth "add" "CompositeDisposable",
      meth "add" "CompositeDisposable",
      meth "findCommands"
        "Array<( name: string; displayName: string; description?: string | undefined; tags?: string[] | undefined )>",
      meth "dispatch" "Promise<void> | null",
      meth "onWillDispatch" "Disposable",
      meth "onDidDispatch" "Disposable"],
    .importDecl "../index" ["Disposable"] false,
    .classDecl "Task" true [] [
      meth "once" "Task",
      ctorMember,
      meth "start" "void",
      meth "send" "void",
      meth "on" "Disposable",
      meth "terminate" "void",
      meth "cancel" "boolean"]] }

/-- src/get-window-load-settings.d.ts. -/
def windowLoadSettingsFile : SourceFile :=
  { path := "src/get-window-load-settings.d.ts", constructs := [
    .typeAlias "LocationToOpen" false [
      prop "exists" "boolean",
      prop "hasWaitSession" "boolean",
      prop "initialColumn" "number | null",
      prop "initialLine" "number | null",
      prop "isDirectory" "boolean",
      prop "isFile" "boolean",
      prop "pathToOpen" "string | null"],
    .interfaceDecl "WindowLoadSettings" true [] [
      prop "appName" "string",
      prop "appVersion" "string",
      prop "atomHome" "string",
      prop "clearWindowState" "boolean",
      prop "devMode" "boolean",
      propO "env" "( [key: string]: string | undefined ) | undefined",
      prop "hasOpenFiles" "boolean",
      prop "initialProjectRoots" "string[]",
      prop "locationsToOpen" "LocationToOpen[]",
      prop "resourcePath" "string",
      prop "safeMode" "boolean",
      propO "profileStartup" "boolean | undefined",
      prop "userSettings" "object",
      prop "windowInitializationScript" "string"]] }

/-- src/grammar-registry.d.ts. -/
def grammarRegistryFile : SourceFile :=
  { path := "src/grammar-registry.d.ts", constructs := [
    .importDecl "../index"
      ["Disposable", "Grammar as TextMateGrammar", "GrammarToken", "TextBuffer"] false,
    .importDecl "./wasm-tree-sitter-grammar"
      ["InjectionPoint", "WASMTreeSitterGrammar", "WASMTreeSitterGrammarParams"] false,
    .typeAlias "GenericGrammar" false [],
    .typeAlias "GrammarType" false [],
    .typeAlias "TextMateGrammarParams" false [
      propO "maxTokensPerLine" "number",
      propO "maxLineLength" "number",
      propO "limitLineLength" "boolean",
      prop "name" "string",
      propO "fileTypes" "string[]",
      prop "scopeName" "string",
      propO "foldingStopMarker" "string",
      propO "injections" "unknown[]",
      propO "injectionSelector" "string",
      propO "patterns" "unknown[]",
      propO "repository" "unknown",
      propO "firstLineMatch" "string",
      propO "contentRegex" "string"],
    .typeAlias "GrammarConstructorParams" false [],
    .typeAlias "CreateGrammarParams" false [
      prop "type" "\"modern-tree-sitter\"",
      prop "params" "GrammarConstructorParams",
      prop "params" "TextMateGrammarParams"],
    .typeAlias "LanguageScopeFunction" false [],
    .interfaceDecl "GrammarRegistry" true [] [
      meth "onDidAddGrammar" "Disposable",
      meth "onDidUpdateGrammar" "Disposable",
      meth "onDidRemoveGrammar" "Disposable",
      meth "getGrammars" "GenericGrammar[]",
      meth "grammarForScopeName" "GenericGrammar | undefined",
      meth "addGrammar" "Disposable",
      meth "removeGrammar" "void",
      meth "createGrammar" "GenericGrammar",
      meth "removeGrammarForScopeName" "TextMateGrammar | undefined",
      meth "readGrammarSync" "GenericGrammar",
      meth "readGrammar" "void",
      meth "loadGrammarSync" "GenericGrammar",
      meth "loadGrammar" "void",
      meth "decodeTokens" "GrammarToken[]",
      meth "maintainLanguageMode" "Disposable",
      meth "assignLanguageMode" "boolean",
      meth "autoAssignLanguageMode" "void",
      meth "selectGrammar" "GenericGrammar",
      meth "getGrammarScore" "number",
      meth "addInjectionPoint" "Disposable"]] }

/-- src/language-mode.d.ts, with the related wasm-tree-sitter-grammar
document. -/
def languageModeFile : SourceFile :=
  { path := "src/language-mode.d.ts", constructs := [
    .importDecl "../index"
      ["Disposable", "Grammar", "Point", "PointCompatible", "Range", "ScopeDescriptor"] false,
    .typeAlias "CommentStrings" false [
      propO "commentStartString" "string",
      propO "commentEndString" "string",
      propO "commentDelimiters" "( line?: string; block?: [string, string] )"],
    .typeAlias "BufferDidChangeEvent" false [
      prop "oldText" "string",
      prop "newText" "string",
      prop "oldRange" "Range",
      prop "newRange" "Range"],
    .interfaceDecl "HighlightIterator" true [] [
      meth "seek" "number[]",
      meth "moveToSuccessor" "boolean",
      meth "getPosition" "Point",
      meth "getOpenScopeIds" "number[]",
      meth "getCloseScopeIds" "number[]"],
    .interfaceDecl "LanguageMode" true [] [
      meth "destroy" "void",
      meth "getGrammar" "Grammar",
      meth "getLanguageId" "string",
      meth "suggestedIndentForBufferRow" "number | null | Promise<number | undefined>",
      meth "suggestedIndentForLineAtBufferRow" "number",
      meth "suggestedIndentForEditedBufferRow" "number",
      meth "bufferDidChange" "void",
      meth "commentStringsForPosition" "CommentStrings",
      meth "buildHighlightIterator" "HighlightIterator",
      meth "classNameForScopeId" "string",
      meth "onDidChangeHighlighting" "Disposable",
      meth "isFoldableAtRow" "boolean",
      meth "getFoldableRangeContainingPoint" "Range | null",
      meth "getFoldableRangesAtIndentLevel" "Range[]",
      meth "getFoldableRanges" "Range[]",
      meth "scopeDescriptorForPosition" "ScopeDescriptor",
      meth "bufferRangeForScopeAtPosition" "Range | null",
      meth "isRowCommented" "boolean"],
    .importDecl "../index"
      ["Disposable", "GrammarRegistry", "GrammarToken", "Range", "TextBuffer",
        "TokenizeLineResult"] false,
    .importDecl "web-tree-sitter" ["Language", "Node", "Query"] true,
    .typeAlias "CommentDelimiterSpec" true [
      propO "line" "string",
      propO "block" "[string, string]"],
    .typeAlias "StandardQueryType" false [],
    .typeAlias "CustomQueryType" false [],
    .typeAlias "DidChangeQueryPayload" false [
      prop "filePath" "string",
      prop "queryType" "StandardQueryType | CustomQueryType"],
    .typeAlias "LanguageScopeFunction" false [],
    .typeAlias "InjectionPoint" true [
      prop "type" "string",
      meth "language" "string | undefined",
      meth "content" "Node | Node[] | undefined",
      propO "includeChildren" "boolean",
      propO "newlinesBetween" "boolean",
      propO "languageScope" "string | null | LanguageScopeFunction",
      propO "coverShallowerScopes" "boolean",
      propO "includeAdjacentWhitespace" "boolean"],
    .typeAlias "TreeSitterParams" false [
      prop "grammar" "string",
      propO "highlightsQuery" "string",
      propO "foldsQuery" "string",
      propO "tagsQuery" "string",
      propO "indentsQuery" "string",
      propO "languageSegment" "string"],
    .typeAlias "WASMTreeSitterGrammarParams" false [
      prop "name" "string",
      prop "scopeName" "string",
      propO "contentRegex" "string | string[]",
      propO "firstLineRegex" "string | string[]",
      prop "treeSitter" "TreeSitterParams",
      propO "comments" "( start?: string, end?: string )"],
    .classDecl "WASMTreeSitterGrammar" true [] [
      prop "name" "string",
      prop "scopeName" "string",
      ctorMember,
      meth "onDidUpdate" "Disposable",
      meth "onDidChangeQuery" "Disposable",
      meth "onDidChangeQueryFile" "Disposable",
      meth "onDidLoadQueryFiles" "Disposable",
      meth "addInjectionPoint" "void",
      meth "removeInjectionPoint" "void",
      meth "getCommentDelimiters" "CommentDelimiterSpec",
      meth "getLanguage" "Promise<Language>",
      meth "getLanguageSync" "Language | null",
      meth "getQuery" "Promise<Query>",
      meth "getQuerySync" "Query",
      meth "createQuery" "Promise<Query>",
      meth "createQuerySync" "Query",
      meth "setQueryForTest" "Promise<Query>",
      meth "tokenizeLines" "GrammarToken[][]",
      meth "tokenizeLine" "TokenizeLineResult",
      meth "tokenizeLine" "TokenizeLineResult"]] }

/-- src/layer-decoration.d.ts. -/
def layerDecorationFile : SourceFile :=
  { path := "src/layer-decoration.d.ts", constructs := [
    .importDecl "../index"
      ["DecorationLayerOptions", "DisplayMarker", "Marker", "TextEditor"] false,
    .interfaceDecl "LayerDecoration" true [] [
      meth "destroy" "void",
      meth "isDestroyed" "boolean",
      meth "getProperties" "DecorationLayerOptions",
      meth "setProperties" "void",
      meth "setPropertiesForMarker" "void"]] }

/-- src/notification.d.ts. -/
def notificationFile : SourceFile :=
  { path := "src/notification.d.ts", constructs := [
    .importDecl "../index" ["Disposable"] false,
    .classDecl "Notification" true [] [
      ctorMember,
      ctorMember,
      meth "onDidDismiss" "Disposable",
      meth "onDidDisplay" "Disposable",
      meth "getType" "string",
      meth "getMessage" "string",
      meth "getTimestamp" "Date",
      meth "getDetail" "string | undefined",
      meth "isEqual" "boolean",
      meth "dismiss" "void",
      meth "isDismissed" "boolean",
      meth "isDismissable" "boolean",
      meth "wasDisplayed" "boolean",
      meth "setDisplayed" "void",
      meth "getIcon" "string",
      meth "getOptions" "NotificationOptions"],
    .interfaceDecl "NotificationOptions" true [] [
      propNO "buttons"
        "Array<( className?: string | undefined; onDidClick?(event: MouseEvent): void; text?: string | undefined )> | undefined"
        [sigPropO "className" "string | undefined",
         sigMethO "onDidClick" "void",
         sigPropO "text" "string | undefined"],
      propO "description" "string | undefined",
      propO "detail" "string | undefined",
      propO "dismissable" "boolean | undefined",
      propO "icon" "string | undefined"],
    .interfaceDecl "ErrorNotificationOptions" true ["NotificationOptions"] [
      propO "stack" "string | undefined"]] }

/-- src/package.d.ts. -/
def packageFile : SourceFile :=
  { path := "src/package.d.ts", constructs := [
    .importDecl "../index" ["Disposable"] false,
    .interfaceDecl "Package" true [] [
      prop "name" "string",
      prop "path" "string",
      meth "onDidDeactivate" "Disposable",
      meth "isCompatible" "boolean",
      meth "rebuild" "Promise<( code: number; stdout: string; stderr: string )>",
      meth "getBuildFailureOutput" "string | null"]] }

/-- src/project.d.ts. -/
def projectFile : SourceFile :=
  { path := "src/project.d.ts", constructs := [
    .importDecl "../index"
      ["ConfigValues", "Directory", "Disposable", "FilesystemChangeEvent",
        "GitRepository", "PathWatcher", "TextBuffer"] false,
    .interfaceDecl "Project" true [] [
      meth "onDidChangePaths" "Disposable",
      meth "onDidAddBuffer" "Disposable",
      meth "observeBuffers" "Disposable",
      meth "onDidChangeFiles" "Disposable",
      meth "onDidReplace" "Disposable",
      meth "getRepositories" "GitRepository[]",
      meth "observeRepositories" "Disposable",
      meth "onDidAddRepository" "Disposable",
      meth "repositoryForDirectory" "Promise<GitRepository | null>",
      meth "getPaths" "string[]",
      meth "setPaths" "void",
      meth "addPath" "void",
      meth "getWatcherPromise" "Promise<PathWatcher>",
      meth "removePath" "void",
      meth "getDirectories" "Directory[]",
      meth "getDirectoryForProjectPath" "Directory",
      meth "relativize" "string",
      meth "relativizePath" "[string | null, string]",
      meth "contains" "boolean",
      meth "replace" "void"],
    .interfaceDecl "ProjectSpecification" true [] [
      prop "paths" "string[]",
      prop "originPath" "string",
      propO "config" "ConfigValues | undefined"]] }

/-- src/style-manager.d.ts. -/
def styleManagerFile : SourceFile :=
  { path := "src/style-manager.d.ts", constructs := [
    .importDecl "../index" ["Disposable"] false,
    .interfaceDecl "StyleManager" true [] [
      meth "observeStyleElements" "Disposable",
      meth "onDidAddStyleElement" "Disposable",
      meth "onDidRemoveStyleElement" "Disposable",
      meth "onDidUpdateStyleElement" "Disposable",
      meth "getStyleElements" "HTMLStyleElement[]",
      meth "getUserStyleSheetPath" "string",
      meth "addStyleSheet" "Disposable"],
    .interfaceDecl "StyleElementObservedEvent" true ["HTMLStyleElement"] [
      prop "sourcePath" "string",
      prop "context" "string"]] }

/-- src/ui.d.ts. -/
def uiFile : SourceFile :=
  { path := "src/ui.d.ts", constructs := [
    .importDecl "../index" ["Grammar"] false,
    .typeAlias "MarkdownRenderOptions" false [
      propO "renderMode" "\"full\" | \"fragment\"",
      propO "html" "boolean",
      propO "sanitize" "boolean",
      propO "sanitizeAllowUnknownProtocols" "boolean",
      propO "sanitizeAllowSelfClose" "boolean",
      propO "breaks" "boolean",
      propO "handleFrontMatter" "boolean",
      propO "useDefaultEmoji" "boolean",
      propO "useGitHubHeadings" "boolean",
      propO "useTaskCheckbox" "boolean",
      propO "taskCheckboxDisabled" "boolean",
      propO "taskCheckboxDivWrap" "boolean",
      propO "transformImageLinks" "boolean",
      propO "transformAtomLinks" "boolean",
      propO "transformNonFqdnLinks" "boolean",
      propO "rootDomain" "string",
      propO "filePath" "string",
      propO "disableMode" "\"none\" | \"strict\""],
    .typeAlias "ApplySyntaxHighlightingOptions" false [
      propO "syntaxScopeNameFunc" "(id: string) => string",
      propO "renderMode" "\"full\" | \"fragment\"",
      propO "grammar" "Grammar"],
    .typeAlias "MatcherOptions" false [
      propO "numThreads" "number",
      propO "algorithm" "\"fuzzaldrin\" | \"command-t\"",
      propO "maxResults" "number",
      propO "recordMatchIndexes" "boolean",
      prop "maxGap" "number"],
    .typeAlias "MatchResult" false [
      prop "id" "number",
      prop "value" "string",
      prop "score" "number",
      propO "matchIndexes" "number[]"],
    .classDecl "Matcher" false [] [
      prop "numCpus" "number",
      meth "match" "MatchResult",
      meth "setCandidates" "void"],
    .interfaceDecl "UI" true [] [
      propN "markdown" "( render; applySyntaxHighlighting; convertToDOM )"
        [sigMeth "render" "string",
         sigMeth "applySyntaxHighlighting" "Promise<HTMLElement>",
         sigMeth "convertToDOM" "DocumentFragment"],
      propN "fuzzyMatcher" "( setCandidates; score; match )"
        [sigMeth "setCandidates" "Matcher",
         sigMeth "setCandidates" "Matcher",
         sigMeth "score" "number",
         sigMeth "match" "MatchResult"]]] }

/-- unnamed/part_000: the Branding interface. -/
def brandingFile : SourceFile :=
  { path := "unnamed/part_000", constructs := [
    .interfaceDecl "Branding" true [] [
      prop "id" "string",
      prop "name" "string",
      prop "urlCoreRepo" "string",
      prop "urlForum" "string",
      prop "urlGH" "string",
      prop "urlWeb" "string"]] }

/-- unnamed/part_001: the Config interface and config schema types. -/
def configFile : SourceFile :=
  { path := "unnamed/part_001", constructs := [
    .importDecl "../index" ["ConfigValues", "Disposable", "ScopeDescriptor"] false,
    .typeAlias "ConfigSchemaType" false [],
    .typeAlias "ConfigSchema" true [],
    .typeAlias "ConfigSchemaBase" false [
      propO "title" "string",
      propO "description" "string"],
    .typeAlias "ConfigSchemaForInteger" false [
      prop "type" "\"integer\"",
      propO "default" "number",
      propO "minimum" "number",
      propO "maximum" "number"],
    .typeAlias "ConfigSchemaForNumber" false [
      prop "type" "\"number\"",
      propO "default" "number",
      propO "minimum" "number",
      propO "maximum" "number"],
    .typeAlias "ConfigSchemaForBoolean" false [
      prop "type" "\"boolean\"",
      propO "default" "boolean"],
    .typeAlias "ConfigSchemaForArray" false [
      prop "type" "\"array\"",
      propO "default" "SubType[]",
      prop "items" "ConfigSchema"],
    .typeAlias "ConfigSchemaForObject" false [
      prop "type" "\"object\"",
      prop "properties" "Record<string, ConfigSchema>"],
    .interfaceDecl "Config" true [] [
      meth "observe" "Disposable",
      meth "observe" "Disposable",
      meth "onDidChange" "Disposable",
      meth "onDidChange" "Disposable",
      meth "onDidChange" "Disposable",
      meth "get" "ConfigValues[T]",
      meth "set" "void",
      meth "unset" "void",
      meth "getAll" "Array<( scopeDescriptor: ScopeDescriptor; value: ConfigValues[T] )>",
      meth "getSources" "string[]",
      meth "getSchema" "ConfigSchema | null",
      meth "getUserConfigPath" "string",
      meth "transact" "void"]] }

/-- unnamed/part_002: Decoration and decoration option interfaces. -/
def decorationFile : SourceFile :=
  { path := "unnamed/part_002", constructs := [
    .importDecl "../index"
      ["DecorationPropsChangedEvent", "DisplayMarker", "Disposable"] false,
    .interfaceDecl "Decoration" true [] [
      prop "id" "number",
      meth "destroy" "void",
      meth "onDidChangeProperties" "Disposable",
      meth "onDidDestroy" "Disposable",
      meth "getId" "number",
      meth "getMarker" "DisplayMarker",
      meth "isType" "boolean",
      meth "getProperties" "DecorationOptions",
      meth "setProperties" "void"],
    .interfaceDecl "SharedDecorationOptions" true [] [
      propO "class" "string | undefined",
      propO "style" "object | undefined",
      propO "item" "object | undefined",
      propO "onlyHead" "boolean | undefined",
      propO "onlyEmpty" "boolean | undefined",
      propO "onlyNonEmpty" "boolean | undefined",
      propO "omitEmptyLastRow" "boolean | undefined",
      propO "position" "\"head\" | \"tail\" | \"before\" | \"after\" | undefined",
      propO "order" "number | undefined",
      propO "avoidOverflow" "boolean | undefined"],
    .interfaceDecl "DecorationLayerOptions" true ["SharedDecorationOptions"] [
      propO "type"
        "\"line\" | \"line-number\" | \"text\" | \"highlight\" | \"block\" | \"cursor\" | undefined"],
    .interfaceDecl "DecorationOptions" true ["SharedDecorationOptions"] [
      propO "type"
        "\"line\" | \"line-number\" | \"text\" | \"highlight\" | \"overlay\" | \"gutter\" | \"block\" | \"cursor\" | undefined",
      propO "gutterName" "string | undefined"]] }

/-- unnamed/part_003: the WASMTreeSitterLanguageMode ambient class. -/
def wasmLanguageModeFile : SourceFile :=
  { path := "unnamed/part_003", constructs := [
    .importDecl "../index"
      ["Config", "Grammar", "GrammarRegistry", "PointCompatible", "Range",
        "ScopeDescriptor", "TextBuffer"] false,
    .importDecl "./wasm-tree-sitter-grammar"
      ["CommentDelimiterSpec", "WASMTreeSitterGrammar"] false,
    .typeAlias "TransactionMetadata" false [
      prop "changeCount" "number",
      prop "range" "Range | null",
      prop "autoIndentRequests" "number"],
    .typeAlias "SuggestedIndentForBufferRowOptions" false [
      propO "skipEvent" "boolean",
      propO "skipBlankLines" "boolean",
      propO "skipDedentCheck" "boolean",
      prop "preserveLeadingWhitespace" "boolean",
      propO "indentationLevels" "Map<number, number> | null",
      propO "forceTreeParse" "boolean"],
    .classDecl "WASMTreeSitterLanguageMode" true [] [
      prop "id" "number",
      prop "buffer" "TextBuffer",
      prop "grammar" "WASMTreeSitterGrammar",
      prop "grammarRegistry" "GrammarRegistry",
      prop "config" "Config",
      prop "useAsyncParsing" "boolean",
      prop "useAsyncIndent" "boolean",
      prop "rootScopeDescriptor" "ScopeDescriptor",
      meth "destroy" "void",
      meth "getGrammar" "Grammar",
      meth "getLanguageId" "string",
      meth "getNonWordCharacters" "string",
      meth "atTransactionEnd" "Promise<TransactionMetadata | void>",
      meth "parseCompletePromise" "Promise<TransactionMetadata | void>",
      meth "grammarForLanguageString" "WASMTreeSitterGrammar | null",
      meth "onDidTokenize" "Disposable",
      meth "onDidChangeHighlighting" "Disposable",
      meth "syntaxTreeScopeDescriptorForPosition" "string[]",
      meth "bufferRangeForScopeAtPosition" "Range | undefined",
      meth "scopeDescriptorForPosition" "ScopeDescriptor",
      meth "getSyntaxNodeContainingRange" "Node | undefined",
      meth "getSyntaxNodeAndGrammarContainingRange"
        "( node: Node, grammar: WASMTreeSitterGrammar ) | ( node: null, grammar: null )",
      meth "getRangeForSyntaxNodeContainingRange" "Range | undefined",
      meth "getSyntaxNodeAtPosition" "Node | undefined",
      meth "getFoldableRangeContainingPoint" "Range | null",
      meth "getFoldableRanges" "Range[]",
      meth "getFoldableRangesAtIndentLevel" "Range[]",
      meth "isFoldableAtRow" "boolean",
      meth "getFoldRangeForRow" "Range | null",
      meth "commentStringsForPosition"
        "( commentStartString: string, commentEndString?: string, commentDelimiters: CommentDelimiterSpec )",
      meth "isRowCommented" "boolean",
      meth "suggestedIndentForBufferRow" "number | null | Promise<number | undefined>",
      meth "suggestedIndentForBufferRows" "Map<number, number | null>",
      meth "suggestedIndentForEditedBufferRow" "number | null | Promise<number | undefined>",
      meth "suggestedIndentForLineAtBufferRow" "number | null | Promise<number | undefined>"]] }

/-- unnamed/part_004: ScopeDescriptor, with the related ViewRegistry
document. -/
def scopeDescriptorFile : SourceFile :=
  { path := "unnamed/part_004", constructs := [
    .interfaceDecl "ScopeDescriptor" true [] [
      meth "getScopesArray" "readonly string[]"],
    .importDecl "../index" ["Disposable", "TextEditor", "TextEditorElement"] false,
    .interfaceDecl "ViewRegistry" true [] [
      meth "addViewProvider" "Disposable",
      meth "addViewProvider" "Disposable",
      meth "getView" "TextEditorElement",
      meth "getView" "HTMLElement"],
    .interfaceDecl "ViewModel" true [] [
      prop "getTitle" "() => string"]] }

/-- unnamed/part_005: Pane, AbstractPaneItem and pane item event types. -/
def paneFile : SourceFile :=
  { path := "unnamed/part_005", constructs := [
    .importDecl "../index" ["Disposable", "TextEditor", "ViewModel", "Workspace"] false,
    .typeAlias "PaneItem" true [],
    .typeAlias "PaneItemLocation" false [],
    .typeAlias "PaneItemSerializer" false [
      prop "deserializer" "string"],
    .typeAlias "PaneItemFileFilter" false [
      prop "name" "string",
      prop "extensions" "string[]"],
    .typeAlias "PaneItemSaveDialogProperty" false [],
    .typeAlias "PaneItemSaveDialogOptions" false [
      propO "title" "string",
      propO "defaultPath" "string",
      propO "buttonLabel" "string",
      propO "filters" "PaneItemFileFilter[]",
      propO "message" "string",
      propO "nameFieldLabel" "string",
      propO "showsTagField" "boolean",
      propO "properties" "PaneItemSaveDialogProperty[]"],
    .interfaceDecl "AbstractPaneItem" false ["ViewModel"] [
      meth "getTitle" "string",
      meth "getElement" "HTMLElement",
      methO "getURI" "string",
      methO "destroy" "unknown",
      methO "onDidDestroy" "Disposable",
      methO "isDestroyed" "boolean",
      methO "serialize" "PaneItemSerializer",
      methO "onDidChangeTitle" "Disposable",
      methO "getLongTitle" "string",
      methO "getIconName" "string",
      methO "onDidChangeIcon" "Disposable",
      methO "getDefaultLocation" "PaneItemLocation",
      methO "getAllowedLocations" "PaneItemLocation[]",
      methO "isPermanentDockItem" "boolean",
      methO "save" "void | Promise<void>",
      methO "save" "void | Promise<void>",
      methO "getPath" "string",
      methO "getSaveDialogOptions" "PaneItemSaveDialogOptions",
      methO "isModified" "boolean",
      methO "onDidChangeModified" "Disposable",
      methO "copy" "AbstractPaneItem",
      methO "getPreferredHeight" "number",
      methO "getPreferredWidth" "number",
      methO "onDidTerminatePendingState" "Disposable",
      methO "shouldPromptToSave" "boolean",
      methO "observeEmbeddedTextEditor" "Disposable"],
    .interfaceDecl "Pane" true [] [
      meth "onDidChangeFlexScale" "Disposable",
      meth "observeFlexScale" "Disposable",
      meth "onDidActivate" "Disposable",
      meth "onWillDestroy" "Disposable",
      meth "onDidDestroy" "Disposable",
      meth "onDidChangeActive" "Disposable",
      meth "observeActive" "Disposable",
      meth "onDidAddItem" "Disposable",
      meth "onDidRemoveItem" "Disposable",
      meth "onWillRemoveItem" "Disposable",
      meth "onDidMoveItem" "Disposable",
      meth "observeItems" "Disposable",
      meth "onDidChangeActiveItem" "Disposable",
      meth "onChooseNextMRUItem" "Disposable",
      meth "onChooseLastMRUItem" "Disposable",
      meth "onDoneChoosingMRUItem" "Disposable",
      meth "observeActiveItem" "Disposable",
      meth "onWillDestroyItem" "Disposable",
      meth "getItems" "PaneItem[]",
      meth "getActiveItem" "PaneItem",
      meth "itemAtIndex" "PaneItem | undefined",
      meth "activateNextItem" "void",
      meth "activatePreviousItem" "void",
      meth "moveItemRight" "void",
      meth "moveItemLeft" "void",
      meth "getActiveItemIndex" "number",
      meth "activateItemAtIndex" "void",
      meth "activateItem" "void",
      meth "addItem" "PaneItem",
      meth "addItems" "PaneItem[]",
      meth "moveItem" "void",
      meth "moveItemToPane" "void",
      meth "destroyActiveItem" "Promise<boolean>",
      meth "destroyItem" "Promise<boolean>",
      meth "destroyItems" "Promise<boolean[]>",
      meth "destroyInactiveItems" "Promise<boolean[]>",
      meth "saveActiveItem" "Promise<T> | undefined",
      meth "saveActiveItemAs" "Promise<T> | undefined",
      meth "saveItem" "Promise<T> | undefined",
      meth "saveItemAs" "Promise<T> | undefined",
      meth "saveItems" "void",
      meth "itemForURI" "PaneItem | undefined",
      meth "activateItemForURI" "boolean",
      meth "isActive" "boolean",
      meth "activate" "void",
      meth "destroy" "void",
      meth "isDestroyed" "boolean",
      meth "splitLeft" "Pane",
      meth "splitRight" "Pane",
      meth "splitUp" "Pane",
      meth "splitDown" "Pane",
      meth "getPendingItem" "PaneItem | null",
      meth "setPendingItem" "void",
      meth "clearPendingItem" "void"],
    .interfaceDecl "PaneListItemShiftedEvent" true [] [
      prop "item" "PaneItem",
      prop "index" "number"],
    .interfaceDecl "PaneItemMovedEvent" true [] [
      prop "item" "PaneItem",
      prop "oldIndex" "number",
      prop "newIndex" "number"],
    .interfaceDecl "PaneItemObservedEvent" true [] [
      prop "item" "PaneItem",
      prop "pane" "Pane",
      prop "index" "number"],
    .interfaceDecl "PaneItemOpenedEvent" true ["PaneItemObservedEvent"] [
      prop "uri" "string"]] }

/-- unnamed/part_006: ambient module declarations re-exporting the package
(two related variants of the same shim file). -/
def moduleShimsFile : SourceFile :=
  { path := "unnamed/part_006", constructs := [
    .moduleDecl "atom" [.exportStar "@pulsar-edit/types"],
    .moduleDecl "atom/autocomplete-plus"
      [.exportStar "@pulsar-edit/types/autocomplete-plus"],
    .moduleDecl "atom/linter" [.exportStar "@pulsar-edit/types/linter"],
    .moduleDecl "atom/status-bar" [.exportStar "@pulsar-edit/types/status-bar"],
    .moduleDecl "atom/tool-bar" [.exportStar "@pulsar-edit/types/tool-bar"],
    .moduleDecl "atom" [.exportStar "@pulsar-edit/types"],
    .moduleDecl "atom/autocomplete-plus" [.exportStar "./autocomplete-plus"],
    .moduleDecl "atom/linter" [.exportStar "./linter"],
    .moduleDecl "atom/status-bar" [.exportStar "./status-bar"],
    .moduleDecl "atom/tool-bar" [.exportStar "./tool-bar"]] }

/-- unnamed/part_007: the package index, with the ambient global declaration
and the re-export list. -/
def indexFile : SourceFile :=
  { path := "unnamed/part_007", constructs := [
    .docComment "NOTE about which classes remain exported",
    .referenceDirective "types=node",
    .referenceDirective "path=./atom.d.ts",
    .importDecl "./src/atom-environment" ["AtomEnvironment"] false,
    .importDecl "./src/text-editor-element" ["TextEditorElement"] false,
    .globalDecl [
      .constDecl "atom" "AtomEnvironment" none,
      .interfaceDecl "HTMLElementTagNameMap" false [] [
        prop "atom-text-editor" "TextEditorElement"]],
    .exportStar "./dependencies/event-kit",
    .exportStar "./dependencies/first-mate",
    .exportStar "./dependencies/pathwatcher",
    .exportStar "./dependencies/text-buffer",
    .exportStar "./src/atom-environment",
    .exportStar "./src/buffered-node-process",
    .exportStar "./src/buffered-process",
    .exportStar "./src/clipboard",
    .exportStar "./src/color",
    .exportStar "./src/command-registry",
    .exportStar "./src/config",
    .exportStar "./src/config-schema",
    .exportStar "./src/context-menu-manager",
    .exportStar "./src/cursor",
    .exportStar "./src/decoration",
    .exportStar "./src/deserializer-manager",
    .exportStar "./src/dock",
    .exportStar "./src/get-window-load-settings",
    .exportStar "./src/git-repository",
    .exportStar "./src/grammar-registry",
    .exportStar "./src/gutter",
    .exportStar "./src/history-manager",
    .exportStar "./src/keymap-extensions",
    .exportStar "./src/layer-decoration",
    .exportStar "./src/menu-manager",
    .exportStar "./src/notification",
    .exportStar "./src/notification-manager",
    .exportStar "./src/other-types",
    .exportStar "./src/package",
    .exportStar "./src/package-manager",
    .exportStar "./src/pane",
    .exportStar "./src/panel",
    .exportStar "./src/path-watcher",
    .exportStar "./src/project",
    .exportStar "./src/scope-descriptor",
    .exportStar "./src/selection",
    .exportStar "./src/style-manager",
    .exportStar "./src/task",
    .exportStar "./src/text-editor",
    .exportStar "./src/text-editor-component",
    .exportStar "./src/text-editor-element",
    .exportStar "./src/text-editor-registry",
    .exportStar "./src/theme-manager",
    .exportStar "./src/tooltip",
    .exportStar "./src/tooltip-manager",
    .exportStar "./src/view-registry",
    .exportStar "./src/ui",
    .exportNamed ["WASMTreeSitterGrammar"] "./src/wasm-tree-sitter-grammar",
    .exportNamed ["WASMTreeSitterLanguageMode"] "./src/wasm-tree-sitter-language-mode",
    .exportStar "./src/workspace",
    .exportStar "./src/workspace-center"] }

/-- unnamed/part_008: DisplayMarkerLayer and marker query options. -/
def displayMarkerLayerFile : SourceFile :=
  { path := "unnamed/part_008", constructs := [
    .importDecl "../../../index" ["Disposable"] false,
    .importDecl "./text-buffer"
      ["DisplayMarker", "Marker", "PointCompatible", "RangeCompatible"] false,
    .interfaceDecl "DisplayMarkerLayer" true [] [
      prop "id" "string",
      meth "destroy" "void",
      meth "clear" "void",
      meth "isDestroyed" "boolean",
      meth "onDidDestroy" "Disposable",
      meth "onDidUpdate" "Disposable",
      meth "onDidCreateMarker" "Disposable",
      meth "markScreenRange" "DisplayMarker",
      meth "markScreenPosition" "DisplayMarker",
      meth "markBufferRange" "DisplayMarker",
      meth "markBufferPosition" "DisplayMarker",
      meth "getMarker" "DisplayMarker",
      meth "getMarkers" "DisplayMarker[]",
      meth "getMarkerCount" "number",
      meth "findMarkers" "DisplayMarker[]"],
    .interfaceDecl "FindDisplayMarkerOptions" true [] [
      propO "startBufferPosition" "PointCompatible | undefined",
      propO "endBufferPosition" "PointCompatible | undefined",
      propO "startScreenPosition" "PointCompatible | undefined",
      propO "endScreenPosition" "PointCompatible | undefined",
      propO "startsInBufferRange" "RangeCompatible | undefined",
      propO "endsInBufferRange" "RangeCompatible | undefined",
      propO "startsInScreenRange" "RangeCompatible | undefined",
      propO "endsInScreenRange" "RangeCompatible | undefined",
      propO "startBufferRow" "number | undefined",
      propO "endBufferRow" "number | undefined",
      propO "startScreenRow" "number | undefined",
      propO "endScreenRow" "number | undefined",
      propO "intersectsBufferRowRange" "[number, number] | undefined",
      propO "intersectsScreenRowRange" "[number, number] | undefined",
      propO "containsBufferRange" "RangeCompatible | undefined",
      propO "containsBufferPosition" "PointCompatible | undefined",
      propO "containedInBufferRange" "RangeCompatible | undefined",
      propO "containedInScreenRange" "RangeCompatible | undefined",
      propO "intersectsBufferRange" "RangeCompatible | undefined",
      propO "intersectsScreenRange" "RangeCompatible | undefined"]] }

/-- unnamed/part_009: the TextMate-style Grammar interface and token types. -/
def grammarFile : SourceFile :=
  { path := "unnamed/part_009", constructs := [
    .importDecl "../../../index" ["Disposable"] false,
    .interfaceDecl "Grammar" true [] [
      prop "name" "string",
      prop "scopeName" "string",
      meth "onDidUpdate" "Disposable",
      meth "tokenizeLines" "GrammarToken[][]",
      meth "tokenizeLine" "TokenizeLineResult",
      meth "tokenizeLine" "TokenizeLineResult"],
    .interfaceDecl "GrammarToken" true [] [
      prop "value" "string",
      prop "scopes" "string[]"],
    .interfaceDecl "GrammarRule" true [] [
      prop "rule" "object",
      prop "scopeName" "string",
      prop "contentScopeName" "string"],
    .interfaceDecl "TokenizeLineResult" true [] [
      prop "line" "string",
      prop "tags" "Array<number | string>",
      prop "tokens" "GrammarToken[]",
      prop "ruleStack" "GrammarRule[]"]] }

/-- unnamed/part_010: the Autocomplete Plus service types. -/
def autocompletePlusFile : SourceFile :=
  { path := "unnamed/part_010", constructs := [
    .docComment "Autocomplete Plus 2.x",
    .referenceDirective "path=./config.d.ts",
    .importDecl "../index" ["Point", "ScopeDescriptor", "TextEditor"] false,
    .interfaceDecl "SuggestionsRequestedEvent" true [] [
      prop "editor" "TextEditor",
      prop "bufferPosition" "Point",
      prop "scopeDescriptor" "ScopeDescriptor",
      prop "prefix" "string",
      prop "activatedManually" "boolean"],
    .interfaceDecl "SuggestionInsertedEvent" true [] [
      prop "editor" "TextEditor",
      prop "triggerPosition" "Point",
      prop "suggestion" "TextSuggestion | SnippetSuggestion"],
    .interfaceDecl "SuggestionBase" true [] [
      propO "displayText" "string",
      propO "replacementPrefix" "string",
      propO "type" "string",
      propO "leftLabel" "string",
      propO "leftLabelHTML" "string",
      propO "rightLabel" "string",
      propO "rightLabelHTML" "string",
      propO "className" "string",
      propO "iconHTML" "string",
      propO "description" "string",
      propO "descriptionMoreURL" "string",
      propO "descriptionMarkdown" "string"],
    .interfaceDecl "TextSuggestion" true ["SuggestionBase"] [
      prop "text" "string"],
    .interfaceDecl "SnippetSuggestion" true ["SuggestionBase"] [
      prop "snippet" "string"],
    .typeAlias "AnySuggestion" true [],
    .typeAlias "Suggestion" true [],
    .typeAlias "Suggestions" true [],
    .interfaceDecl "AutocompleteProvider" true [] [
      prop "selector" "string",
      propO "disableForSelector" "string",
      propO "inclusionPriority" "number",
      propO "excludeLowerPriority" "boolean",
      propO "suggestionPriority" "number",
      propO "filterSuggestions" "boolean",
      meth "getSuggestions" "Suggestions | Promise<Suggestions>",
      methO "getSuggestionDetailsOnSelect"
        "Promise<AnySuggestion | null> | AnySuggestion | null",
      methO "onDidInsertSuggestion" "void",
      methO "dispose" "void"]] }

/-- The full corpus: one entry per source file of the repository bundle. -/
def corpus : List SourceFile := [
  readmeFile,
  eventKitFile,
  consumerFile,
  providerFile,
  serviceHubFile,
  commandRegistryFile,
  windowLoadSettingsFile,
  grammarRegistryFile,
  languageModeFile,
  layerDecorationFile,
  notificationFile,
  packageFile,
  projectFile,
  styleManagerFile,
  uiFile,
  brandingFile,
  configFile,
  decorationFile,
  wasmLanguageModeFile,
  scopeDescriptorFile,
  paneFile,
  moduleShimsFile,
  indexFile,
  displayMarkerLayerFile,
  grammarFile,
  autocompletePlusFile]

/-- Whether a construct is one of the declaration forms a declaration file may
contain: interface, type alias, ambient class, ambient module/global
declaration, uninitialized ambient const, import, export, or documentation.
Executable statements, function bodies and initialized consts are not
declaration forms. -/
def Construct.isDeclarationForm : Construct → Bool
  | .importDecl .. => true
  | .referenceDirective .. => true
  | .interfaceDecl .. => true
  | .typeAlias .. => true
  | .classDecl .. => true
  | .globalDecl .. => true
  | .moduleDecl .. => true
  | .constDecl _ _ none => true
  | .constDecl _ _ (some _) => false
  | .exportStar .. => true
  | .exportNamed .. => true
  | .docComment .. => true
  | .functionDecl .. => false
  | .statement _ => false

/-- Whether a construct is an interface or a type-alias declaration. -/
def Construct.isInterfaceOrAlias : Construct → Bool
  | .interfaceDecl .. => true
  | .typeAlias .. => true
  | _ => false

/-- Whether a construct is pure documentation. -/
def Construct.isDoc : Construct → Bool
  | .docComment _ => true
  | _ => false

/-- Whether a construct references another file or module. -/
def Construct.isModuleRef : Construct → Bool
  | .importDecl .. => true
  | .exportStar .. => true
  | .exportNamed .. => true
  | .referenceDirective .. => true
  | _ => false

/-- Whether a construct is exported from its file. -/
def Construct.isExported : Construct → Bool
  | .interfaceDecl _ e _ _ => e
  | .typeAlias _ e _ => e
  | .classDecl _ e _ _ => e
  | .exportStar _ => true
  | .exportNamed _ _ => true
  | _ => false

/-- Whether a top-level construct is executable: a statement, a function with
a body, or an initialized const. -/
def Construct.isExecutableTopLevel : Construct → Bool
  | .statement _ => true
  | .functionDecl _ _ (some _) => true
  | .constDecl _ _ (some _) => true
  | _ => false

/-- Modules referenced by a statement at the value level (a `require` call). -/
def Stmt.moduleRefs : Stmt → List String
  | .requireCall m => [m]
  | _ => []

/-- Whether a statement can raise an error at runtime: a `throw`, or a call
(which may invoke an error constructor or a throwing function). -/
def Stmt.canRaise : Stmt → Bool
  | .throwNew _ => true
  | .exprCall .. => true
  | _ => false

/-- The kind of a named declaration. -/
inductive DeclKind where
  | interfaceK
  | aliasK
  | classK
  | constK
  | functionK
  | moduleK
deriving BEq, DecidableEq

/-- Name and kind of a named declaration, if the construct is one. -/
def Construct.declKind : Construct → Option (String × DeclKind)
  | .interfaceDecl n _ _ _ => some (n, .interfaceK)
  | .typeAlias n _ _ => some (n, .aliasK)
  | .classDecl n _ _ _ => some (n, .classK)
  | .constDecl n _ _ => some (n, .constK)
  | .functionDecl n _ _ => some (n, .functionK)
  | .moduleDecl n _ => some (n, .moduleK)
  | _ => none

/-- All constructs of the corpus, module/global bodies flattened in. -/
def corpusConstructs : List Construct :=
  (corpus.map SourceFile.allConstructs).flatten

/-- The kinds of every top-level declaration of the given name anywhere in
the corpus. -/
def declKindsOf (n : String) : List DeclKind :=
  (corpusConstructs.filterMap Construct.declKind).filterMap
    (fun p => if p.1 == n then some p.2 else none)

/-- The `implements` lists of every ambient class of the given name. -/
def implementsListOf (n : String) : List (List String) :=
  corpusConstructs.filterMap fun c =>
    match c with
    | .classDecl m _ impl _ => if m == n then some impl else none
    | _ => none

/-- Extends list and members of every interface of the given name. -/
def interfaceInfoOf (n : String) : List (List String × List Member) :=
  corpusConstructs.filterMap fun c =>
    match c with
    | .interfaceDecl m _ ext ms => if m == n then some (ext, ms) else none
    | _ => none

/-- All member signatures in the corpus, tagged with the name of their owning
declaration. -/
def corpusOwnedSigs : List (String × Sig) :=
  (corpus.map SourceFile.ownedSigs).flatten

/-- Whether one string starts with another. -/
def strStartsWith (s p : String) : Bool :=
  p.toList.isPrefixOf s.toList

/-- Whether a member name follows the event-subscription naming pattern. -/
def isEventSubName (n : String) : Bool :=
  strStartsWith n "onDid" || strStartsWith n "onWill" || strStartsWith n "observe"

/-- Every method signature in the corpus (nested object-type methods
included) whose name matches the event-subscription pattern, with its owning
declaration. -/
def eventMethodSigs : List (String × Sig) :=
  corpusOwnedSigs.filter fun p => p.2.kind == .method && isEventSubName p.2.name

/-- The `on`, `once` and `preempt` signatures of `Emitter`. -/
def emitterSubSigs : List Sig :=
  corpusOwnedSigs.filterMap fun p =>
    if p.1 == "Emitter"
        && (p.2.name == "on" || p.2.name == "once" || p.2.name == "preempt")
    then some p.2 else none

/-- Every method named `dispose` in the corpus, with its owner. -/
def disposeSigs : List (String × Sig) :=
  corpusOwnedSigs.filter fun p => p.2.name == "dispose" && p.2.kind == .method

/-- One constructor overload of the `Notification` class, transcribed from
src/notification.d.ts lines 5 and 6. -/
structure NotificationCtorOverload where
  typeStrings : List String
  messageTy : String
  optionsTy : String
  optionsOptional : Bool
deriving BEq, DecidableEq

/-- The two constructor overloads of `Notification`. -/
def notificationCtorOverloads : List NotificationCtorOverload := [
  { typeStrings := ["warning", "info", "success"], messageTy := "string",
    optionsTy := "NotificationOptions", optionsOptional := true },
  { typeStrings := ["fatal", "error"], messageTy := "string",
    optionsTy := "ErrorNotificationOptions", optionsOptional := true }]

set_option maxRecDepth 100000

/-- C1: for every source file in the corpus, every construct is a declaration
form (interface, type alias, ambient class, ambient module/global
declaration, import, export, or documentation comment), no declared function
or method has a body, and there is no executable statement anywhere. -/
theorem C1_declaration_files_only :
    (corpus.all fun f =>
      f.allConstructs.all Construct.isDeclarationForm
      && f.allSigs.all (fun s => s.body == none)
      && f.allStmts.isEmpty) = true := by rfl

/-- C2, counterexample: it is not the case that every declaration in every
file is an interface or a type alias. Concretely, the file
src/notification.d.ts declares `Notification` as an ambient class, which is
neither an interface nor a type alias. -/
theorem C2_counterexample :
    ((corpus.filter (fun f => f.path == "src/notification.d.ts")).all fun f =>
      f.allConstructs.all fun c =>
        match c.declKind with
        | some _ => c.isInterfaceOrAlias
        | none => true) = false := by rfl

/-- C2, amended: every file in the corpus is either pure documentation or
consists only of ambient declaration forms - interfaces, type aliases,
ambient classes, ambient module/global/const declarations, imports, exports
and documentation comments - none of which carries an executable body. -/
theorem C2_amended_ambient_declarations :
    (corpus.all fun f =>
      (f.markdown && f.constructs.all Construct.isDoc)
      || (f.allConstructs.all Construct.isDeclarationForm
          && f.allSigs.all (fun s => s.body == none))) = true := by rfl

/-- C3: every cross-file reference in the corpus is a type-level construct -
an import declaration, a re-export, or a reference directive, none of which
contains executable code - and no file contains value-level code referencing
another module (there are no statements at all, hence no `require`-style
value-level module references). -/
theorem C3_type_level_references_only :
    (corpus.all fun f =>
      ((f.allStmts.map Stmt.moduleRefs).flatten).isEmpty
      && f.allConstructs.all
        (fun c => !c.isModuleRef || (c.isDeclarationForm && c.stmts.isEmpty))) = true := by
  rfl

/-- C4: the repository defines only a type-level contract: every construct is
ambient (contains no executable statement, so the repository owns no wire
format handler, file format handler or CLI entry), and everything exported is
a declaration form carrying no runtime value of its own. -/
theorem C4_type_level_contract_only :
    (corpus.all fun f => f.allConstructs.all fun c =>
      c.stmts.isEmpty && (!c.isExported || c.isDeclarationForm)) = true := by rfl

/-- C5: the repository is a flat set of declaration files: no file contains a
top-level executable construct (so there is no runtime entry point), and no
file contains any statement (so there is no data flow between files). -/
theorem C5_flat_declaration_corpus :
    (corpus.all fun f =>
      f.constructs.all (fun c => !c.isExecutableTopLevel)
      && f.allStmts.isEmpty) = true := by rfl

/-- C6: `Decoration`, `Pane`, `Grammar` and `Project` are each declared in
the corpus exactly once, as interfaces - not as classes or value
declarations. -/
theorem C6_entities_are_interfaces :
    declKindsOf "Decoration" = [DeclKind.interfaceK] ∧
    declKindsOf "Pane" = [DeclKind.interfaceK] ∧
    declKindsOf "Grammar" = [DeclKind.interfaceK] ∧
    declKindsOf "Project" = [DeclKind.interfaceK] := by
  refine ⟨?_, ?_, ?_, ?_⟩ <;> rfl

/-- C7: no error-producing logic exists in the repository: the corpus
contains no statement that can raise an error (no throw, no constructor or
function invocation) - indeed it contains no statement at all. -/
theorem C7_no_error_producing_logic :
    (corpus.all fun f =>
      f.allStmts.all (fun s => !s.canRaise) && f.allStmts.isEmpty) = true := by rfl

/-- C8, counterexample: it is not the case that every method in the corpus
named onDid*/onWill*/observe* is declared to return `Disposable`. Concretely,
`onDidInsertSuggestion` of `AutocompleteProvider` (unnamed/part_010) is such
a method and is declared to return `void` (as is `onDidClick` in the object
type of `NotificationOptions.buttons`). -/
theorem C8_counterexample :
    ((eventMethodSigs.all fun p => p.2.retTy == "Disposable")
      && emitterSubSigs.all (fun s => s.retTy == "Disposable")) = false
    ∧ eventMethodSigs.contains
        ("AutocompleteProvider", sigMethO "onDidInsertSuggestion" "void") = true := by
  exact ⟨by rfl, by rfl⟩

/-- C8, amended: every event-subscription method in the corpus named
onDid*/onWill*/observe*, and every `on`/`once`/`preempt` overload of
`Emitter` (six signatures in total), is declared to return `Disposable`,
except for exactly two consumer-implemented callbacks - `onDidClick` in the
object type of `NotificationOptions.buttons` and
`AutocompleteProvider.onDidInsertSuggestion` - both declared to return
`void`. -/
theorem C8_amended_event_methods_return_disposable :
    ((eventMethodSigs.filter fun p =>
        !(p.2.name == "onDidClick" || p.2.name == "onDidInsertSuggestion")).all
      (fun p => p.2.retTy == "Disposable")
     && emitterSubSigs.all (fun s => s.retTy == "Disposable")
     && emitterSubSigs.length == 6
     && ((eventMethodSigs.filter fun p =>
          p.2.name == "onDidClick" || p.2.name == "onDidInsertSuggestion").map
            (fun p => (p.1, p.2.retTy))
        == [("NotificationOptions", "void"), ("AutocompleteProvider", "void")])) = true := by
  rfl

/-- C9: `Emitter` is declared to implement `DisposableLike`; its `dispose`
is declared to return `boolean`, while `DisposableLike.dispose` and
`Disposable.dispose` return `void`, and every other `dispose` method in the
corpus (those of `CompositeDisposable` and `AutocompleteProvider` included)
returns `void` as well. -/
theorem C9_dispose_return_types :
    (implementsListOf "Emitter" == [["DisposableLike"]]
     && (disposeSigs.filterMap
          (fun p => if p.1 == "Emitter" then some p.2.retTy else none) == ["boolean"])
     && (disposeSigs.filterMap
          (fun p => if p.1 == "DisposableLike" || p.1 == "Disposable"
            then some p.2.retTy else none) == ["void", "void"])
     && (disposeSigs.filter (fun p => !(p.1 == "Emitter"))).all
          (fun p => p.2.retTy == "void")) = true := by rfl

/-- C10: a `Notification` can only be constructed with one of exactly the
five type strings "warning", "info", "success", "fatal", "error"; the two
constructor overloads partition them, with "warning"/"info"/"success" taking
`NotificationOptions` and only "fatal"/"error" taking
`ErrorNotificationOptions`, whose sole addition over `NotificationOptions`
is the optional `stack` field. -/
theorem C10_notification_constructor_partition :
    ((notificationCtorOverloads.map NotificationCtorOverload.typeStrings).flatten
      == ["warning", "info", "success", "fatal", "error"]
     && ((notificationCtorOverloads.filter
          (fun o => o.optionsTy == "NotificationOptions")).map
            NotificationCtorOverload.typeStrings
        == [["warning", "info", "success"]])
     && ((notificationCtorOverloads.filter
          (fun o => o.optionsTy == "ErrorNotificationOptions")).map
            NotificationCtorOverload.typeStrings
        == [["fatal", "error"]])
     && notificationCtorOverloads.all (fun o => o.optionsOptional)
     && (corpusOwnedSigs.filter
          (fun p => p.1 == "Notification" && p.2.kind == MemberKind.ctorK)).length == 2
     && (interfaceInfoOf "ErrorNotificationOptions"
        == [(["NotificationOptions"], [propO "stack" "string | undefined"])])
     && (interfaceInfoOf "NotificationOptions").all
          (fun p => p.2.all (fun m => !(m.toSig.name == "stack")))) = true := by rfl

end PulsarTypes
